import Mathlib

/-
  Verification of the flappy-bird game in src/main.rs.

  Shallow embedding: `f32` values are modelled as exact rationals (ℚ), Bevy
  component queries as lists of component tuples, and each Bevy system as a
  pure function from the components it reads to the components it writes.
  `NextState<GameStates>` is modelled as `Option GameStates` (`none` = no
  pending transition; `NextState.set s` stores `some s`).
-/

namespace Flappy

/-- `bevy::math::Vec2` (f32 pair), modelled over ℚ. -/
structure Vec2 where
  x : ℚ
  y : ℚ
deriving DecidableEq, Repr

/-- `bevy::math::Vec3` (f32 triple), modelled over ℚ. -/
structure Vec3 where
  x : ℚ
  y : ℚ
  z : ℚ
deriving DecidableEq, Repr

/-- `Vec3::truncate`: drop the z coordinate. -/
def Vec3.truncate (v : Vec3) : Vec2 := ⟨v.x, v.y⟩

/-- Scalar division of a `Vec2`, as in `scale.truncate() / 2.0`. -/
def Vec2.div (v : Vec2) (s : ℚ) : Vec2 := ⟨v.x / s, v.y / s⟩

/-- `const WINDOW_SIZE: Vec2 = Vec2::new(1280.0, 720.0);` -/
def WINDOW_SIZE : Vec2 := ⟨1280, 720⟩

/-- `const GRAVITY_STRENGTH: f32 = 2000.0;` -/
def GRAVITY_STRENGTH : ℚ := 2000

/-- `const JUMP_STRENGTH: f32 = 800.0;` -/
def JUMP_STRENGTH : ℚ := 800

/-- `const PIPE_SPEED: f32 = 450.0;` -/
def PIPE_SPEED : ℚ := 450

/-- `const PIPE_GAP: f32 = 225.0;` -/
def PIPE_GAP : ℚ := 225

/-- `const PLAYER_SIZE: Vec2 = Vec2::new(32.0, 32.0);` -/
def PLAYER_SIZE : Vec2 := ⟨32, 32⟩

/-- `const PIPE_WIDTH: f32 = 32.0;` -/
def PIPE_WIDTH : ℚ := 32

/-- `const PIPE_HEIGHT: f32 = WINDOW_SIZE.y;` -/
def PIPE_HEIGHT : ℚ := WINDOW_SIZE.y

/-- `enum GameStates { InGame, GameOver }` (the `States` enum of the game). -/
inductive GameStates where
  | InGame
  | GameOver
deriving DecidableEq, Repr

/-- Bevy `Transform`, restricted to the fields the game uses. -/
structure Transform where
  translation : Vec3
  scale : Vec3
deriving DecidableEq, Repr

/-- `struct Velocity { x: f32, y: f32 }` component. -/
structure Velocity where
  x : ℚ
  y : ℚ
deriving DecidableEq, Repr

/-- `struct Acceleration { x: f32, y: f32 }` component. -/
structure Acceleration where
  x : ℚ
  y : ℚ
deriving DecidableEq, Repr

/-- `Acceleration::gravity()`: `(0.0, -GRAVITY_STRENGTH)`. -/
def Acceleration.gravity : Acceleration := ⟨0, -GRAVITY_STRENGTH⟩

/-- `struct Pipe { give_score: bool }` component. -/
structure Pipe where
  give_score : Bool
deriving DecidableEq, Repr

/--
`apply_velocity`: for every entity with a `Transform` and a `Velocity`,
`transform.translation += (velocity * elapsed).extend(0.0)`.  The query is a
list of `(Transform, Velocity)` pairs and `elapsed` is `time.delta_secs()`.
-/
def apply_velocity (query : List (Transform × Velocity)) (elapsed : ℚ) :
    List (Transform × Velocity) :=
  query.map fun (transform, velocity) =>
    let moved : Vec2 := ⟨velocity.x * elapsed, velocity.y * elapsed⟩
    ({ transform with
        translation := ⟨transform.translation.x + moved.x,
                        transform.translation.y + moved.y,
                        transform.translation.z + 0⟩ },
     velocity)

/--
`apply_acceleration`: for every entity with a `Velocity` and an
`Acceleration`, `velocity += acceleration * elapsed` componentwise.
-/
def apply_acceleration (query : List (Velocity × Acceleration)) (elapsed : ℚ) :
    List (Velocity × Acceleration) :=
  query.map fun (velocity, acceleration) =>
    ({ x := velocity.x + acceleration.x * elapsed,
       y := velocity.y + acceleration.y * elapsed }, acceleration)

/--
`handle_movement`: if Space was just pressed, set the player's vertical
velocity to `JUMP_STRENGTH`; otherwise leave the velocity untouched.
-/
def handle_movement (space_just_pressed : Bool) (player_velocity : Velocity) :
    Velocity :=
  if space_just_pressed then { player_velocity with y := JUMP_STRENGTH }
  else player_velocity

/-- `bevy::math::bounding::Aabb2d`: an axis-aligned bounding box. -/
structure Aabb2d where
  min : Vec2
  max : Vec2
deriving DecidableEq, Repr

/-- `Aabb2d::new(center, half_size)`: box from center and half-extents. -/
def Aabb2d.new (center half_size : Vec2) : Aabb2d :=
  { min := ⟨center.x - half_size.x, center.y - half_size.y⟩,
    max := ⟨center.x + half_size.x, center.y + half_size.y⟩ }

/--
`IntersectsVolume::intersects` for two `Aabb2d`s (Bevy: the boxes overlap
when the intervals overlap on both axes, boundaries included).
-/
def Aabb2d.intersects (a b : Aabb2d) : Bool :=
  (decide (a.min.x ≤ b.max.x) && decide (a.max.x ≥ b.min.x)) &&
  (decide (a.min.y ≤ b.max.y) && decide (a.max.y ≥ b.min.y))

/--
`check_player_pipe_collission`: build the player's AABB from its transform,
and for each pipe whose AABB intersects it, set the next state to
`GameOver`.  `next_state` is the pending `NextState` value before the
system runs; the fold mirrors the `for` loop over the pipe query.
-/
def check_player_pipe_collission (player_transform : Transform)
    (pipes_query : List Transform) (next_state : Option GameStates) :
    Option GameStates :=
  let player_collider := Aabb2d.new player_transform.translation.truncate
    (player_transform.scale.truncate.div 2)
  pipes_query.foldl
    (fun ns pipe_transform =>
      let pipe_collider := Aabb2d.new pipe_transform.translation.truncate
        (pipe_transform.scale.truncate.div 2)
      if player_collider.intersects pipe_collider then some GameStates.GameOver
      else ns)
    next_state

/--
`check_player_screen_bounds`: below the bottom edge the next state becomes
`GameOver`; more than 100 above the top edge the vertical velocity is
zeroed.  Returns the (possibly updated) velocity and next state.
-/
def check_player_screen_bounds (player_transform : Transform)
    (player_velocity : Velocity) (next_state : Option GameStates) :
    Velocity × Option GameStates :=
  let next_state :=
    if player_transform.translation.y < -WINDOW_SIZE.y / 2 then
      some GameStates.GameOver
    else next_state
  let player_velocity :=
    if player_transform.translation.y - 100 > WINDOW_SIZE.y / 2 then
      { player_velocity with y := 0 }
    else player_velocity
  (player_velocity, next_state)

/--
`handle_pipe_despawn`: despawn every pipe whose `translation.x` is below
`-WINDOW_SIZE.x`; the surviving entities are the query entries that fail
that test.
-/
def handle_pipe_despawn (query : List (Transform × Pipe)) :
    List (Transform × Pipe) :=
  query.filter fun (transform, _) =>
    ¬ transform.translation.x < -WINDOW_SIZE.x

/--
`give_score_when_over_player`, inner loop: walk the pipe query in order;
a pipe with `give_score == false` is skipped; otherwise, when the pipe's
right edge is strictly left of `player_left`, clear its flag and add 1 to
the score.  Returns the final score and the updated query.
-/
def give_score_loop (player_left : ℚ) (score : ℤ) :
    List (Transform × Pipe) → ℤ × List (Transform × Pipe)
  | [] => (score, [])
  | (pipe_transform, pipe) :: rest =>
    if pipe.give_score = false then
      let r := give_score_loop player_left score rest
      (r.1, (pipe_transform, pipe) :: r.2)
    else
      let pipe_right := pipe_transform.translation.x + pipe_transform.scale.x / 2
      if pipe_right < player_left then
        let r := give_score_loop player_left (score + 1) rest
        (r.1, (pipe_transform, { give_score := false }) :: r.2)
      else
        let r := give_score_loop player_left score rest
        (r.1, (pipe_transform, pipe) :: r.2)

/--
`give_score_when_over_player`: compute the player's left edge and run the
scoring loop over all pipes.
-/
def give_score_when_over_player (score : ℤ) (player_transform : Transform)
    (pipes_query : List (Transform × Pipe)) : ℤ × List (Transform × Pipe) :=
  let player_left :=
    player_transform.translation.x - player_transform.scale.x / 2
  give_score_loop player_left score pipes_query

/--
`restart_on_r`: if the R key was just released, set the next state to
`InGame`.
-/
def restart_on_r (r_just_released : Bool) (next_state : Option GameStates) :
    Option GameStates :=
  if r_just_released then some GameStates.InGame else next_state

/--
The `Update` schedule from `main`: `handle_movement` runs only in
`InGame`, `restart_on_r` runs only in `GameOver` (the `run_if` guards).
Returns the player's velocity and the pending next state after the
schedule.
-/
def update_schedule (state : GameStates) (space_just_pressed : Bool)
    (r_just_released : Bool) (player_velocity : Velocity)
    (next_state : Option GameStates) : Velocity × Option GameStates :=
  match state with
  | GameStates.InGame =>
      (handle_movement space_just_pressed player_velocity, next_state)
  | GameStates.GameOver =>
      (player_velocity, restart_on_r r_just_released next_state)

/--
Applying a pending `NextState` at the end of the frame: `none` keeps the
current state.
-/
def apply_next_state (state : GameStates) (next_state : Option GameStates) :
    GameStates :=
  next_state.getD state

/--
The repeating `PipeSpawnTimer` from `setup`: a Bevy `Timer` with a fixed
duration, tracked here by its elapsed time (timer internals beyond what the
game observes — elapsed time and the 2-second duration — are engine code).
-/
structure Timer where
  duration : ℚ
  elapsed : ℚ
deriving DecidableEq, Repr

/-- `Timer::reset`: the elapsed time goes back to zero. -/
def Timer.reset (t : Timer) : Timer := { t with elapsed := 0 }

/-- The player bundle components returned by `make_player`. -/
structure PlayerBundle where
  transform : Transform
  acceleration : Acceleration
  velocity : Velocity
deriving DecidableEq, Repr

/--
`make_player`: transform at `(-320, 0, 0)` with scale
`PLAYER_SIZE.extend(1.0)`, gravity acceleration, default (zero) velocity.
-/
def make_player : PlayerBundle :=
  { transform := { translation := ⟨-320, 0, 0⟩,
                   scale := ⟨PLAYER_SIZE.x, PLAYER_SIZE.y, 1⟩ },
    acceleration := Acceleration.gravity,
    velocity := ⟨0, 0⟩ }

/-- `on_enter_game`: spawn a fresh player entity (`commands.spawn`). -/
def on_enter_game (players : List PlayerBundle) : List PlayerBundle :=
  players ++ [make_player]

/--
`on_game_restart` (runs on every exit from `GameOver`): despawn every
entity of the pipe query, reset the spawn timer, zero the score.
-/
def on_game_restart (pipes : List (Transform × Pipe)) (score : ℤ)
    (pipe_spawn_timer : Timer) : List (Transform × Pipe) × ℤ × Timer :=
  (pipes.filter fun _ => false, 0, pipe_spawn_timer.reset)

/-- The components of `PipeBundle` the game logic reads. -/
structure PipeBundle where
  transform : Transform
  velocity : Velocity
  pipe : Pipe
deriving DecidableEq, Repr

/--
`PipeBundle::new(height, y, give_score)`: translation
`(WINDOW_SIZE.x / 2, y - height / 2, 0)`, scale `(PIPE_WIDTH, height, 1)`,
velocity `(-PIPE_SPEED, 0)`.
-/
def PipeBundle.new (height y : ℚ) (give_score : Bool) : PipeBundle :=
  { transform := { translation := ⟨WINDOW_SIZE.x / 2, y - height / 2, 0⟩,
                   scale := ⟨PIPE_WIDTH, height, 1⟩ },
    velocity := ⟨-PIPE_SPEED, 0⟩,
    pipe := { give_score := give_score } }

/--
`handle_pipe_spawn`, from the point where the ticked timer is inspected:
if the timer did not finish this tick, nothing is spawned; otherwise
`bottom_pos` is drawn by `random_range` from
`[-WINDOW_SIZE.y/2, WINDOW_SIZE.y/2 - PIPE_GAP)` (here a parameter) and the
two pipes of the pair are spawned.
-/
def handle_pipe_spawn (timer_finished : Bool) (bottom_pos : ℚ)
    (pipes : List PipeBundle) : List PipeBundle :=
  if timer_finished = false then pipes
  else
    pipes ++
      [PipeBundle.new PIPE_HEIGHT (bottom_pos + PIPE_HEIGHT + PIPE_GAP) true,
       PipeBundle.new PIPE_HEIGHT bottom_pos false]

/-- The pipes appended by one spawn event. -/
def spawned_pair (bottom_pos : ℚ) : List PipeBundle :=
  [PipeBundle.new PIPE_HEIGHT (bottom_pos + PIPE_HEIGHT + PIPE_GAP) true,
   PipeBundle.new PIPE_HEIGHT bottom_pos false]

/-- Right edge of a pipe-like transform, as `give_score_when_over_player`
computes it. -/
def pipeRight (t : Transform) : ℚ := t.translation.x + t.scale.x / 2

/-- Left edge of the player, as `give_score_when_over_player` computes it. -/
def playerLeft (t : Transform) : ℚ := t.translation.x - t.scale.x / 2

/-- The predicate deciding whether a pipe query entry scores on this tick:
its flag is set and its right edge is strictly left of the player's left
edge. -/
def scores_now (player_left : ℚ) (tp : Transform × Pipe) : Bool :=
  tp.2.give_score && decide (pipeRight tp.1 < player_left)

/-
  Theorems.
-/

/--
C4.  Velocity integrates acceleration: for every entity of the
`(Velocity, Acceleration)` query, one `apply_acceleration` tick adds
exactly `acceleration.x * elapsed` to `velocity.x` and
`acceleration.y * elapsed` to `velocity.y`, and leaves the acceleration
unchanged.  (In `main` this system is scheduled on `FixedUpdate` gated by
`in_state(InGame)`.)
-/
theorem apply_acceleration_integrates (query : List (Velocity × Acceleration))
    (elapsed : ℚ) (i : ℕ) (h : i < query.length) :
    (apply_acceleration query elapsed).get
        ⟨i, by simpa [apply_acceleration] using h⟩
      = ({ x := (query.get ⟨i, h⟩).1.x + (query.get ⟨i, h⟩).2.x * elapsed,
           y := (query.get ⟨i, h⟩).1.y + (query.get ⟨i, h⟩).2.y * elapsed },
         (query.get ⟨i, h⟩).2) := by
  simp [apply_acceleration]

/-- Witness for C4: a single entity with velocity `(1, 2)` and
acceleration `(3, 4)` over a tick of `2` ends with velocity `(7, 10)`. -/
theorem apply_acceleration_integrates_witness :
    (apply_acceleration [(⟨1, 2⟩, ⟨3, 4⟩)] 2).get
        ⟨0, by simp [apply_acceleration]⟩
      = (⟨7, 10⟩, ⟨3, 4⟩) := by
  have h := apply_acceleration_integrates [(⟨1, 2⟩, ⟨3, 4⟩)] 2 0 (by simp)
  norm_num at h
  simpa using h

/--
C5.  Position integrates velocity: for every entity of the
`(Transform, Velocity)` query, one `apply_velocity` tick adds exactly
`velocity.x * elapsed` to `translation.x` and `velocity.y * elapsed` to
`translation.y`, leaves `translation.z` and the scale unchanged, and does
not change the velocity.
-/
theorem apply_velocity_integrates (query : List (Transform × Velocity))
    (elapsed : ℚ) (i : ℕ) (h : i < query.length) :
    (apply_velocity query elapsed).get
        ⟨i, by simpa [apply_velocity] using h⟩
      = ({ translation :=
             ⟨(query.get ⟨i, h⟩).1.translation.x
                + (query.get ⟨i, h⟩).2.x * elapsed,
              (query.get ⟨i, h⟩).1.translation.y
                + (query.get ⟨i, h⟩).2.y * elapsed,
              (query.get ⟨i, h⟩).1.translation.z⟩,
           scale := (query.get ⟨i, h⟩).1.scale },
         (query.get ⟨i, h⟩).2) := by
  simp [apply_velocity]

/-- Witness for C5: an entity at `(1, 2, 3)` with velocity `(10, 20)` over
a tick of `2` moves to `(21, 42, 3)`. -/
theorem apply_velocity_integrates_witness :
    (apply_velocity [(⟨⟨1, 2, 3⟩, ⟨32, 32, 1⟩⟩, ⟨10, 20⟩)] 2).get
        ⟨0, by simp [apply_velocity]⟩
      = (⟨⟨21, 42, 3⟩, ⟨32, 32, 1⟩⟩, ⟨10, 20⟩) := by
  have h := apply_velocity_integrates [(⟨⟨1, 2, 3⟩, ⟨32, 32, 1⟩⟩, ⟨10, 20⟩)] 2
    0 (by simp)
  norm_num at h
  simpa using h

/--
C6.  The jump input is a thin passthrough: when Space was just pressed the
player's vertical velocity becomes exactly `JUMP_STRENGTH = 800`
(overwriting any previous value) while the horizontal velocity is kept;
when Space was not just pressed the handler returns the velocity
unchanged.
-/
theorem handle_movement_passthrough (player_velocity : Velocity) :
    handle_movement true player_velocity
        = { x := player_velocity.x, y := JUMP_STRENGTH }
    ∧ handle_movement false player_velocity = player_velocity
    ∧ JUMP_STRENGTH = 800 := by
  refine ⟨?_, rfl, rfl⟩
  simp [handle_movement]

/--
C8.  Screen bounds: whenever the player's `translation.y` is below the
bottom window edge `-WINDOW_SIZE.y / 2 = -360`, the next state is set to
`GameOver`; whenever `translation.y - 100` exceeds the top window edge
`WINDOW_SIZE.y / 2 = 360` (i.e. `translation.y > 460`), the player's
vertical velocity is set to `0`.
-/
theorem check_player_screen_bounds_correct (player_transform : Transform)
    (player_velocity : Velocity) (next_state : Option GameStates) :
    (player_transform.translation.y < -WINDOW_SIZE.y / 2 →
      (check_player_screen_bounds player_transform player_velocity
        next_state).2 = some GameStates.GameOver)
    ∧ (player_transform.translation.y - 100 > WINDOW_SIZE.y / 2 →
      (check_player_screen_bounds player_transform player_velocity
        next_state).1.y = 0)
    ∧ -WINDOW_SIZE.y / 2 = (-360 : ℚ)
    ∧ (∀ y : ℚ, y - 100 > WINDOW_SIZE.y / 2 ↔ y > 460) := by
  refine ⟨fun hlow => ?_, fun hhigh => ?_, by norm_num [WINDOW_SIZE],
    fun y => by constructor <;> intro hy <;> norm_num [WINDOW_SIZE] at hy ⊢
      <;> linarith⟩
  · simp [check_player_screen_bounds, hlow]
  · simp [check_player_screen_bounds, hhigh]

/-- Witness for C8: at `y = -400` the next state becomes `GameOver`; at
`y = 500` the vertical velocity is zeroed. -/
theorem check_player_screen_bounds_correct_witness :
    (check_player_screen_bounds ⟨⟨-320, -400, 0⟩, ⟨32, 32, 1⟩⟩ ⟨0, 5⟩
        none).2 = some GameStates.GameOver
    ∧ (check_player_screen_bounds ⟨⟨-320, 500, 0⟩, ⟨32, 32, 1⟩⟩ ⟨0, 5⟩
        none).1.y = 0 :=
  ⟨(check_player_screen_bounds_correct ⟨⟨-320, -400, 0⟩, ⟨32, 32, 1⟩⟩ ⟨0, 5⟩
      none).1 (by norm_num [WINDOW_SIZE]),
   (check_player_screen_bounds_correct ⟨⟨-320, 500, 0⟩, ⟨32, 32, 1⟩⟩ ⟨0, 5⟩
      none).2.1 (by norm_num [WINDOW_SIZE])⟩

/--
C9.  Restart fully reinitializes the round: `on_game_restart` (scheduled
on every exit from `GameOver`) leaves no pipe entity, zeroes the score and
resets the spawn timer's elapsed time (keeping its 2-second duration);
`on_enter_game` (scheduled on every entry into `InGame`) spawns exactly
one fresh player, at translation `(-320, 0, 0)`, with zero velocity and
gravity acceleration `(0, -2000)`.
-/
theorem restart_reinitializes (pipes : List (Transform × Pipe)) (score : ℤ)
    (pipe_spawn_timer : Timer) (players : List PlayerBundle) :
    on_game_restart pipes score pipe_spawn_timer
        = ([], 0, { duration := pipe_spawn_timer.duration, elapsed := 0 })
    ∧ on_enter_game players
        = players ++
          [{ transform := { translation := ⟨-320, 0, 0⟩,
                            scale := ⟨32, 32, 1⟩ },
             acceleration := ⟨0, -2000⟩,
             velocity := ⟨0, 0⟩ }] := by
  constructor
  · simp [on_game_restart, Timer.reset]
  · simp [on_enter_game, make_player, Acceleration.gravity, GRAVITY_STRENGTH,
      PLAYER_SIZE]

/--
Folding the collision check from a pending `GameOver` keeps `GameOver`:
every loop step either re-sets `GameOver` or leaves the value alone.
-/
theorem collission_fold_from_game_over (player_collider : Aabb2d)
    (l : List Transform) :
    l.foldl
      (fun ns pipe_transform =>
        if player_collider.intersects
            (Aabb2d.new pipe_transform.translation.truncate
              (pipe_transform.scale.truncate.div 2)) then
          some GameStates.GameOver
        else ns)
      (some GameStates.GameOver) = some GameStates.GameOver := by
  induction l with
  | nil => rfl
  | cons head tail ih =>
      simp only [List.foldl_cons]
      split <;> exact ih

/--
C2.  Collisions end the game: if the player's AABB (center
`translation.xy`, half-size `scale.xy / 2`) intersects the AABB of any
pipe in the query, `check_player_pipe_collission` sets the next state to
`GameOver`.  (In `main` the system runs on `FixedUpdate` gated by
`in_state(InGame)`.)
-/
theorem collision_sets_game_over (player_transform : Transform)
    (pipe_transform : Transform) (pipes_query : List Transform)
    (next_state : Option GameStates)
    (hmem : pipe_transform ∈ pipes_query)
    (hint : (Aabb2d.new player_transform.translation.truncate
        (player_transform.scale.truncate.div 2)).intersects
        (Aabb2d.new pipe_transform.translation.truncate
          (pipe_transform.scale.truncate.div 2)) = true) :
    check_player_pipe_collission player_transform pipes_query next_state
      = some GameStates.GameOver := by
  have hfold : ∀ (l : List Transform) (ns : Option GameStates),
      pipe_transform ∈ l →
      l.foldl
        (fun ns pt =>
          if (Aabb2d.new player_transform.translation.truncate
              (player_transform.scale.truncate.div 2)).intersects
              (Aabb2d.new pt.translation.truncate (pt.scale.truncate.div 2))
          then some GameStates.GameOver
          else ns)
        ns = some GameStates.GameOver := by
    intro l
    induction l with
    | nil => exact fun ns h => absurd h (List.not_mem_nil _)
    | cons head tail ih =>
        intro ns hm
        rcases List.mem_cons.mp hm with hhead | htail
        · subst hhead
          simp only [List.foldl_cons, hint, if_true]
          exact collission_fold_from_game_over _ tail
        · simp only [List.foldl_cons]
          split
          · exact collission_fold_from_game_over _ tail
          · exact ih _ htail
  simpa [check_player_pipe_collission] using hfold pipes_query next_state hmem

/-- Witness for C2: the player at the origin overlaps a pipe centered at
`(10, 300)`, and the system reports `GameOver`. -/
theorem collision_sets_game_over_witness :
    check_player_pipe_collission ⟨⟨0, 0, 0⟩, ⟨32, 32, 1⟩⟩
        [⟨⟨10, 300, 0⟩, ⟨32, 720, 1⟩⟩] none = some GameStates.GameOver :=
  collision_sets_game_over ⟨⟨0, 0, 0⟩, ⟨32, 32, 1⟩⟩ ⟨⟨10, 300, 0⟩, ⟨32, 720, 1⟩⟩
    [⟨⟨10, 300, 0⟩, ⟨32, 720, 1⟩⟩] none (List.mem_singleton.mpr rfl)
    (by norm_num [Aabb2d.intersects, Aabb2d.new, Vec3.truncate, Vec2.div])

/--
C7.  The game state is the two-value enum `{InGame, GameOver}`;
`restart_on_r` runs only in `GameOver` (its `run_if` guard in `main`) and
sets the next state to `InGame` exactly when R was just released;
without that release a `GameOver` frame with no pending transition stays
in `GameOver`; and in `InGame` the `Update` schedule never writes the next
state, so pressing or releasing R during `InGame` changes nothing.
-/
theorem restart_only_transition (space_just_pressed r_just_released : Bool)
    (player_velocity : Velocity) (next_state : Option GameStates) :
    (∀ s : GameStates, s = GameStates.InGame ∨ s = GameStates.GameOver)
    ∧ (r_just_released = true →
        (update_schedule GameStates.GameOver space_just_pressed
          r_just_released player_velocity next_state).2
          = some GameStates.InGame)
    ∧ (r_just_released = false →
        (update_schedule GameStates.GameOver space_just_pressed
          r_just_released player_velocity next_state).2 = next_state
        ∧ apply_next_state GameStates.GameOver
            (update_schedule GameStates.GameOver space_just_pressed
              r_just_released player_velocity none).2
          = GameStates.GameOver)
    ∧ (update_schedule GameStates.InGame space_just_pressed r_just_released
        player_velocity next_state).2 = next_state := by
  refine ⟨fun s => by cases s <;> simp, fun hr => ?_, fun hr => ⟨?_, ?_⟩, rfl⟩
  · simp [update_schedule, restart_on_r, hr]
  · simp [update_schedule, restart_on_r, hr]
  · simp [update_schedule, restart_on_r, hr, apply_next_state]

/-- Witness for C7: releasing R in `GameOver` requests `InGame`; not
releasing it leaves the pending state empty. -/
theorem restart_only_transition_witness :
    (update_schedule GameStates.GameOver false true ⟨0, 0⟩ none).2
        = some GameStates.InGame
    ∧ (update_schedule GameStates.GameOver false false ⟨0, 0⟩ none).2
        = none :=
  ⟨(restart_only_transition false true ⟨0, 0⟩ none).2.1 rfl,
   ((restart_only_transition false false ⟨0, 0⟩ none).2.2.1 rfl).1⟩

/--
C10.  Each spawn event makes one well-formed pair: when the timer finishes,
`handle_pipe_spawn` appends exactly the two pipes of `spawned_pair` (and
appends nothing otherwise); both have height `PIPE_HEIGHT = 720`, width
`PIPE_WIDTH = 32` and velocity `(-PIPE_SPEED, 0) = (-450, 0)`; the gap
between the bottom pipe's top edge and the top pipe's bottom edge is
exactly `PIPE_GAP = 225`; for every `bottom_pos` in the `random_range`
interval `[-WINDOW_SIZE.y/2, WINDOW_SIZE.y/2 - PIPE_GAP)` the whole gap
lies within the window's vertical extent `[-360, 360]`; and exactly the
top pipe of the pair carries `give_score = true`.
-/
theorem spawn_pair_invariants (bottom_pos : ℚ) (pipes : List PipeBundle)
    (h1 : -WINDOW_SIZE.y / 2 ≤ bottom_pos)
    (h2 : bottom_pos < WINDOW_SIZE.y / 2 - PIPE_GAP) :
    handle_pipe_spawn true bottom_pos pipes = pipes ++ spawned_pair bottom_pos
    ∧ handle_pipe_spawn false bottom_pos pipes = pipes
    ∧ (spawned_pair bottom_pos).length = 2
    ∧ (∀ pb ∈ spawned_pair bottom_pos,
        pb.transform.scale.y = 720 ∧ pb.transform.scale.x = 32
          ∧ pb.velocity = ⟨-450, 0⟩)
    ∧ (let top := PipeBundle.new PIPE_HEIGHT
          (bottom_pos + PIPE_HEIGHT + PIPE_GAP) true
       let bottom := PipeBundle.new PIPE_HEIGHT bottom_pos false
       let gap_low := bottom.transform.translation.y
          + bottom.transform.scale.y / 2
       let gap_high := top.transform.translation.y
          - top.transform.scale.y / 2
       spawned_pair bottom_pos = [top, bottom]
       ∧ gap_high - gap_low = PIPE_GAP
       ∧ -(WINDOW_SIZE.y / 2) ≤ gap_low
       ∧ gap_high ≤ WINDOW_SIZE.y / 2
       ∧ top.pipe.give_score = true
       ∧ bottom.pipe.give_score = false) := by
  have hwin : WINDOW_SIZE.y = 720 := rfl
  have hgap : PIPE_GAP = 225 := rfl
  refine ⟨rfl, rfl, rfl, ?_, rfl, ?_, ?_, ?_, rfl, rfl⟩
  · intro pb hpb
    simp only [spawned_pair, PipeBundle.new, List.mem_cons,
      List.not_mem_nil, or_false] at hpb
    rcases hpb with hpb | hpb <;> subst hpb <;>
      exact ⟨rfl, rfl, rfl⟩
  · simp only [PipeBundle.new, PIPE_HEIGHT, hwin, hgap]
    ring
  · simp only [PipeBundle.new, PIPE_HEIGHT, hwin, hgap] at h1 ⊢
    linarith
  · simp only [PipeBundle.new, PIPE_HEIGHT, hwin, hgap] at h2 ⊢
    linarith

/-- Witness for C10 at `bottom_pos = 0` (inside the random range): the
spawn appends the pair and the pair's length is 2. -/
theorem spawn_pair_invariants_witness :
    handle_pipe_spawn true 0 [] = [] ++ spawned_pair 0
    ∧ (spawned_pair 0).length = 2 :=
  ⟨(spawn_pair_invariants 0 [] (by norm_num [WINDOW_SIZE])
      (by norm_num [WINDOW_SIZE, PIPE_GAP])).1,
   (spawn_pair_invariants 0 [] (by norm_num [WINDOW_SIZE])
      (by norm_num [WINDOW_SIZE, PIPE_GAP])).2.2.1⟩

/--
C3 counterexample.  A pipe whose center is at `x = -700` is past the left
window edge `-WINDOW_SIZE.x / 2 = -640` — even its right edge
`-700 + 16 = -684` is off screen — yet `handle_pipe_despawn` keeps it,
because the despawn threshold in the code is `-WINDOW_SIZE.x = -1280`, not
the left window edge.  This refutes "any pipe whose position has moved
past the left edge of the window is removed".
-/
theorem handle_pipe_despawn_counterexample :
    (Transform.mk ⟨-700, -360, 0⟩ ⟨32, 720, 1⟩).translation.x
        < -(WINDOW_SIZE.x / 2)
    ∧ pipeRight (Transform.mk ⟨-700, -360, 0⟩ ⟨32, 720, 1⟩)
        < -(WINDOW_SIZE.x / 2)
    ∧ handle_pipe_despawn
        [(Transform.mk ⟨-700, -360, 0⟩ ⟨32, 720, 1⟩, ⟨true⟩)]
      = [(Transform.mk ⟨-700, -360, 0⟩ ⟨32, 720, 1⟩, ⟨true⟩)] := by
  refine ⟨by norm_num [WINDOW_SIZE], by norm_num [WINDOW_SIZE, pipeRight], ?_⟩
  simp only [handle_pipe_despawn, WINDOW_SIZE, List.filter]
  norm_num

/--
C3 amended.  `handle_pipe_despawn` removes exactly the pipes whose
`translation.x` has dropped below `-WINDOW_SIZE.x = -1280` (a full window
width left of center, i.e. half a window width beyond the left edge):
such a pipe is despawned, any other pipe is kept, and in particular no
pipe still on screen (right edge at or beyond the left window edge, with
a width of at most one window) is removed.
-/
theorem handle_pipe_despawn_exact (query : List (Transform × Pipe))
    (tp : Transform × Pipe) (hmem : tp ∈ query) :
    (tp.1.translation.x < -WINDOW_SIZE.x → tp ∉ handle_pipe_despawn query)
    ∧ (¬ tp.1.translation.x < -WINDOW_SIZE.x →
        tp ∈ handle_pipe_despawn query)
    ∧ (-(WINDOW_SIZE.x / 2) ≤ pipeRight tp.1 → tp.1.scale.x ≤ WINDOW_SIZE.x →
        tp ∈ handle_pipe_despawn query) := by
  refine ⟨fun hlt hin => ?_, fun hge => ?_, fun hon hsc => ?_⟩
  · rcases List.mem_filter.mp hin with ⟨-, hkeep⟩
    rw [decide_eq_true_eq] at hkeep
    exact hkeep hlt
  · exact List.mem_filter.mpr ⟨hmem, by rw [decide_eq_true_eq]; exact hge⟩
  · have hkeep : ¬ tp.1.translation.x < -WINDOW_SIZE.x := by
      unfold pipeRight at hon
      intro hlt
      linarith
    exact List.mem_filter.mpr ⟨hmem, by rw [decide_eq_true_eq]; exact hkeep⟩

/-- Witness for C3 amended: a pipe at `x = -1300` is removed while a pipe
at `x = -600` (still on screen) is kept. -/
theorem handle_pipe_despawn_exact_witness :
    (Transform.mk ⟨-1300, 0, 0⟩ ⟨32, 720, 1⟩, Pipe.mk true) ∉
        handle_pipe_despawn
          [(Transform.mk ⟨-1300, 0, 0⟩ ⟨32, 720, 1⟩, Pipe.mk true)]
    ∧ (Transform.mk ⟨-600, 0, 0⟩ ⟨32, 720, 1⟩, Pipe.mk true) ∈
        handle_pipe_despawn
          [(Transform.mk ⟨-600, 0, 0⟩ ⟨32, 720, 1⟩, Pipe.mk true)] :=
  ⟨(handle_pipe_despawn_exact _ _ (List.mem_singleton.mpr rfl)).1
      (by norm_num [WINDOW_SIZE]),
   (handle_pipe_despawn_exact _ _ (List.mem_singleton.mpr rfl)).2.2
      (by norm_num [WINDOW_SIZE, pipeRight]) (by norm_num [WINDOW_SIZE])⟩

/--
Characterization of the scoring loop: it returns the input score plus the
number of entries that score on this tick, and the query with exactly
those entries' flags cleared.
-/
theorem give_score_loop_spec (player_left : ℚ) (score : ℤ)
    (l : List (Transform × Pipe)) :
    give_score_loop player_left score l
      = (score + (l.countP (scores_now player_left) : ℤ),
         l.map fun tp =>
           if scores_now player_left tp then (tp.1, { give_score := false })
           else tp) := by
  induction l generalizing score with
  | nil => simp [give_score_loop]
  | cons head tail ih =>
      obtain ⟨t, p⟩ := head
      by_cases hb : p.give_score = true
      · by_cases hlt : t.translation.x + t.scale.x / 2 < player_left
        · simp [give_score_loop, hb, hlt, ih, scores_now, pipeRight,
            List.countP_cons]
          omega
        · simp [give_score_loop, hb, hlt, ih, scores_now, pipeRight,
            List.countP_cons]
      · simp only [Bool.not_eq_true] at hb
        simp [give_score_loop, hb, ih, scores_now, List.countP_cons]

/--
C1 counterexample.  A bottom pipe is spawned with `give_score = false`,
so it never increments the score even once it is passed: with the player
at `x = 0` (left edge `-16`) and a passed pipe at `x = -100` (right edge
`-84 < -16`) whose flag is `false`, the handler leaves the score at `0`
instead of incrementing it to `1`.  This refutes "for every pipe, once
passed, the score increments exactly once".
-/
theorem give_score_counterexample :
    pipeRight (Transform.mk ⟨-100, 0, 0⟩ ⟨32, 720, 1⟩)
        < playerLeft (Transform.mk ⟨0, 0, 0⟩ ⟨32, 32, 1⟩)
    ∧ (give_score_when_over_player 0 (Transform.mk ⟨0, 0, 0⟩ ⟨32, 32, 1⟩)
        [(Transform.mk ⟨-100, 0, 0⟩ ⟨32, 720, 1⟩, Pipe.mk false)]).1 = 0
    ∧ (give_score_when_over_player 0 (Transform.mk ⟨0, 0, 0⟩ ⟨32, 32, 1⟩)
        [(Transform.mk ⟨-100, 0, 0⟩ ⟨32, 720, 1⟩, Pipe.mk false)]).1
      ≠ 0 + 1 := by
  refine ⟨by norm_num [pipeRight, playerLeft], ?_, ?_⟩ <;>
    simp [give_score_when_over_player, give_score_loop]

/--
C1 amended.  Score increments once per score-carrying pipe passed: the
handler adds exactly one to the score for each pipe whose `give_score`
flag is set and whose right edge is strictly left of the player's left
edge, clearing precisely those pipes' flags (all transforms unchanged);
and a pipe whose flag is `false` — a bottom pipe, or a pipe already
counted on the tick it was first observed passed — contributes nothing to
the score on any later tick, for any score, player position and position
of the pipe in the query.
-/
theorem give_score_exactly_once (score : ℤ) (player_transform : Transform)
    (pipes_query : List (Transform × Pipe)) :
    (give_score_when_over_player score player_transform pipes_query).1
      = score +
        (pipes_query.countP (scores_now (playerLeft player_transform)) : ℤ)
    ∧ (give_score_when_over_player score player_transform pipes_query).2
      = pipes_query.map (fun tp =>
          if scores_now (playerLeft player_transform) tp
          then (tp.1, { give_score := false }) else tp)
    ∧ ∀ (s2 : ℤ) (p2 : Transform) (l1 l2 : List (Transform × Pipe))
        (t : Transform),
        (give_score_when_over_player s2 p2
            (l1 ++ (t, { give_score := false }) :: l2)).1
          = (give_score_when_over_player s2 p2 (l1 ++ l2)).1 := by
  refine ⟨?_, ?_, fun s2 p2 l1 l2 t => ?_⟩
  · simp [give_score_when_over_player, give_score_loop_spec, playerLeft]
  · simp [give_score_when_over_player, give_score_loop_spec, playerLeft]
  · simp [give_score_when_over_player, give_score_loop_spec, playerLeft,
      List.countP_append, List.countP_cons, scores_now]

end Flappy
